import Mathlib

/-!
Shallow embedding of the ai-code-review service core
(`src/app.py`, `src/config.py`, `src/services/git_service.py`,
`src/services/ai_review_service.py`, `src/services/jira_service.py`).

Python dictionaries holding JSON-decoded data are modelled as association
lists `List (String × JVal)` in insertion order (keys unique in every dict
the program builds); external collaborators (git subprocess, Jira client,
HTTP transport) are modelled as oracles passed in explicitly.
-/

/-- JSON-like values, the payloads moved between the services
(Python values produced by `json` decoding / passed to dict literals). -/
inductive JVal where
  | s (v : String)
  | n (v : Int)
  | b (v : Bool)
  | null
  | arr (vs : List JVal)
  | obj (kvs : List (String × JVal))

/-- Python `d[k]` / `k in d` lookup on the association-list model of a dict
(first binding wins; the program never builds a dict with duplicate keys). -/
def dlookup : List (String × JVal) → String → Option JVal
  | [], _ => none
  | (k, v) :: rest, key => if k = key then some v else dlookup rest key

/-- Python `k in d`. -/
def containsKey (d : List (String × JVal)) (key : String) : Bool :=
  (dlookup d key).isSome

/- Python str(x) as used in the f-string interpolations of the comment
formatter. Containers render element-wise; the program only ever
interpolates strings, so only the first case is reached. -/
mutual

/-- Python `str(x)` on a `JVal`. -/
def pyStr : JVal → String
  | .s v => v
  | .n v => toString v
  | .b true => "True"
  | .b false => "False"
  | .null => "None"
  | .arr vs => "[" ++ String.intercalate ", " (pyStrList vs) ++ "]"
  | .obj kvs => "dict(" ++ String.intercalate ", " (pyStrPairs kvs) ++ ")"

def pyStrList : List JVal → List String
  | [] => []
  | v :: vs => pyStr v :: pyStrList vs

def pyStrPairs : List (String × JVal) → List String
  | [] => []
  | (k, v) :: kvs => (k ++ ": " ++ pyStr v) :: pyStrPairs kvs

end

/-- Python iteration `for x in v`: lists yield elements, strings yield
characters, dicts yield keys. Other values raise `TypeError` in Python;
that case is unreachable in the program (the iterated value is always the
`suggestions` list) and is modelled as the empty iteration. -/
def pyIter : JVal → List JVal
  | .arr vs => vs
  | .s v => v.data.map (fun c => JVal.s (String.mk [c]))
  | .obj kvs => kvs.map (fun kv => JVal.s kv.1)
  | _ => []

/-- Python truthiness of an optional string setting
(`None` and `""` are falsy). -/
def pyTruthy : Option String → Bool
  | none => false
  | some s => s ≠ ""

/-- Python `s.startswith(pre)`. -/
def strStartsWith (s pre : String) : Bool :=
  pre.data.isPrefixOf s.data

/-- Splitting a character list at every separator character: the common
core of the two Python `str.split` forms used by the program. `acc` holds
the (reversed) characters of the piece being built. -/
def splitAux (p : Char → Bool) : List Char → List Char → List String
  | [], acc => [String.mk acc.reverse]
  | c :: cs, acc =>
    if p c then String.mk acc.reverse :: splitAux p cs []
    else splitAux p cs (c :: acc)

/-- Python `s.split("\n")`: one piece per newline-separated segment,
keeping empty pieces (so a trailing newline yields a trailing `""`). -/
def splitOnNewline (s : String) : List String :=
  splitAux (fun c => c = '\n') s.data []

/-- Python `s.split()` (no argument): split on whitespace runs, discarding
empty pieces. -/
def pySplitWhitespace (s : String) : List String :=
  (splitAux (fun c => c.isWhitespace) s.data []).filter fun t => t ≠ ""

/-- Does `pat` occur as a contiguous sublist of `l`? (Used to state that an
author name does not itself contain the `"author "` token.) -/
def occursIn (pat : List Char) : List Char → Bool
  | [] => pat.isPrefixOf []
  | c :: cs => pat.isPrefixOf (c :: cs) || occursIn pat cs

/-- Leftmost, non-overlapping replacement of `pat` by `rep`, the semantics
of Python `str.replace` for a non-empty pattern (the only pattern the
program uses is the non-empty literal `"author "`). -/
def replaceAllAux (pat rep : List Char) : List Char → List Char
  | [] => []
  | c :: cs =>
    if h : pat ≠ [] ∧ pat.isPrefixOf (c :: cs) then
      rep ++ replaceAllAux pat rep ((c :: cs).drop pat.length)
    else
      c :: replaceAllAux pat rep cs
termination_by l => l.length
decreasing_by
  · simp only [List.length_drop]
    have hp : 0 < pat.length := List.length_pos.mpr h.1
    simp only [List.length_cons]
    omega
  · simp [Nat.lt_succ_self]

/-- Python `s.replace(pat, rep)` for a non-empty `pat`. -/
def pyReplace (s pat rep : String) : String :=
  ⟨replaceAllAux pat.data rep.data s.data⟩

namespace GitService

/-- A per-file change record as built by
`GitService.get_branch_changes` (`src/services/git_service.py:36-42`);
after the orchestrator's enrichment loop (`src/app.py:124-125`) the record
additionally carries a `jira_context` entry, modelled by the `Option`
field (absent before enrichment). -/
structure ChangeRecord where
  file_path : String
  changes : String
  author : String
  jira_context : Option (List (String × JVal)) := none

/-- Python `"\n".join(lines)`. -/
def joinLines : List String → String
  | [] => ""
  | [l] => l
  | l :: ls => l ++ "\n" ++ joinLines ls

/-- Python `line.split()[-1]`: split on whitespace runs, take the last
token. The subscript never fails in the program because the line is known
to start with `"diff --git"`; the empty-list default models that
unreachable case. -/
def lastToken (line : String) : String :=
  ((pySplitWhitespace line).getLast?).getD ""

/-- Python `s.lstrip("b/")`: strip ALL leading characters belonging to the
set containing b and the slash (character-set semantics, not prefix
removal). -/
def lstripBSlashSet (s : String) : String :=
  ⟨s.data.dropWhile fun c => c = 'b' ∨ c = '/'⟩

/-- The file path stored when a `diff --git` header line is seen
(`src/services/git_service.py:44`). -/
def newFilePath (line : String) : String :=
  lstripBSlashSet (lastToken line)

/-- Flush the currently open file into the record list:
`if current_file and current_changes: changes.append(...)`. Python
truthiness: `current_file` must be a non-empty string and
`current_changes` a non-empty list. -/
def flushRecord (authorOf : String → String) (currentFile : Option String)
    (currentChanges : List String) (changes : List ChangeRecord) : List ChangeRecord :=
  match currentFile with
  | none => changes
  | some f =>
    if f ≠ "" ∧ currentChanges ≠ [] then
      changes ++ [{ file_path := f, changes := joinLines currentChanges, author := authorOf f }]
    else
      changes

/-- The line loop of `GitService.get_branch_changes`
(`src/services/git_service.py:32-59`), including the final flush after the
loop. State: the currently open file (or `none`), its buffered lines, the
accumulated records. -/
def parseDiffLines (authorOf : String → String) :
    List String → Option String → List String → List ChangeRecord → List ChangeRecord
  | [], currentFile, currentChanges, changes =>
    flushRecord authorOf currentFile currentChanges changes
  | line :: rest, currentFile, currentChanges, changes =>
    if strStartsWith line "diff --git" then
      parseDiffLines authorOf rest (some (newFilePath line)) []
        (flushRecord authorOf currentFile currentChanges changes)
    else if strStartsWith line "+++" || strStartsWith line "---" then
      parseDiffLines authorOf rest currentFile currentChanges changes
    else
      parseDiffLines authorOf rest currentFile (currentChanges ++ [line]) changes

/-- `GitService.get_branch_changes` applied to the text returned by the
diff subprocess call: `diff.split("\n")` then the parsing loop. `authorOf`
is the per-file author lookup (`self._get_last_author`). -/
def get_branch_changes (authorOf : String → String) (diffText : String) : List ChangeRecord :=
  parseDiffLines authorOf (splitOnNewline diffText) none [] []

/-- The whole of `get_branch_changes` including the surrounding
`try/except git.GitCommandError` that wraps a failing diff invocation into
`ValueError` (`src/services/git_service.py:63-64`). The diff subprocess
result is an oracle: error message on `GitCommandError`, diff text on
success. -/
def get_branch_changes_result (authorOf : String → String)
    (diffResult : Except String String) : Except String (List ChangeRecord) :=
  match diffResult with
  | .error e => .error ("Error getting branch changes: " ++ e)
  | .ok d => .ok (get_branch_changes authorOf d)

/-- `GitService._get_last_author` (`src/services/git_service.py:66-76`).
The blame subprocess result is an oracle: `.error` when the blame command
raises (file deleted, blame unsupported, ...). The bare `except` also
catches the `StopIteration` of a missing `author ` line, so every failure
path returns the sentinel. -/
def get_last_author (blameResult : Except Unit String) : String :=
  match blameResult with
  | .error _ => "Unknown"
  | .ok blame =>
    match (splitOnNewline blame).find? (fun l => strStartsWith l "author ") with
    | some authorLine => pyReplace authorLine "author " ""
    | none => "Unknown"

end GitService

/-- The settings fields read by the operations modelled here
(`src/config.py`). `AI_SERVICE_URL` and `AI_SERVICE_API_KEY` are declared
`Optional[str] = None`, so each is either absent or an arbitrary string. -/
structure Settings where
  AI_SERVICE_URL : Option String
  AI_SERVICE_API_KEY : Option String

namespace AIReviewService

/-- `AIReviewService._format_review_request`
(`src/services/ai_review_service.py:65-92`): the JSON payload posted to
the analysis backend. `change.get("jira_context", {})` defaults to an
empty mapping when enrichment has not run. -/
def format_review_request (code_changes : List GitService.ChangeRecord) : JVal :=
  .obj
    [("files", .arr (code_changes.map fun change =>
        .obj
          [("path", .s change.file_path),
           ("content", .s change.changes),
           ("author", .s change.author),
           ("context", .obj (change.jira_context.getD []))])),
     ("settings", .obj
        [("language", .s "python"),
         ("style_guide", .s "pep8"),
         ("complexity_threshold", .s "medium")])]

/-- The dict returned by `_process_review_response` when a required key is
missing (`src/services/ai_review_service.py:107-112`). -/
def invalidResponseDict : List (String × JVal) :=
  [("status", .s "failed"),
   ("error", .s "Invalid response from AI service"),
   ("suggestions", .arr []),
   ("summary", .s "Failed to process AI review results")]

/-- `AIReviewService._process_review_response`
(`src/services/ai_review_service.py:94-118`): require the keys `status`,
`suggestions`, `summary`; if all present, return a success dict carrying
the response's own `suggestions` and `summary` values (the response's
`status` value is never consulted). The `getD .null` defaults are
unreachable because the lookups happen only after the membership check. -/
def process_review_response (response_data : List (String × JVal)) : List (String × JVal) :=
  if !(["status", "suggestions", "summary"].all fun field => containsKey response_data field) then
    invalidResponseDict
  else
    [("status", .s "success"),
     ("suggestions", (dlookup response_data "suggestions").getD .null),
     ("summary", (dlookup response_data "summary").getD .null)]

/-- The dict returned by `review_code` when the service is not configured
(`src/services/ai_review_service.py:31-36`). -/
def notConfiguredDict : List (String × JVal) :=
  [("status", .s "failed"),
   ("error", .s "AI service not configured"),
   ("suggestions", .arr []),
   ("summary", .s "Unable to perform code review: AI service not configured")]

/-- The dict returned by `review_code` when the transport raises a
`RequestException` (`src/services/ai_review_service.py:57-63`). -/
def serviceErrorDict (msg : String) : List (String × JVal) :=
  [("status", .s "failed"),
   ("error", .s ("AI review service error: " ++ msg)),
   ("suggestions", .arr []),
   ("summary", .s "Failed to complete code review")]

/-- `AIReviewService.review_code` (`src/services/ai_review_service.py:12-63`).
The HTTP transport (`requests.post` + `raise_for_status` + `.json()`) is
an oracle from the payload to either a `RequestException` message (network
error, timeout, non-2xx status, undecodable body) or the decoded 2xx JSON
mapping. The second component of the result records whether the transport
was invoked. -/
def review_code (settings : Settings)
    (http : JVal → Except String (List (String × JVal)))
    (code_changes : List GitService.ChangeRecord) :
    List (String × JVal) × Bool :=
  if !pyTruthy settings.AI_SERVICE_URL || !pyTruthy settings.AI_SERVICE_API_KEY then
    (notConfiguredDict, false)
  else
    match http (format_review_request code_changes) with
    | .error e => (serviceErrorDict e, true)
    | .ok response_data => (process_review_response response_data, true)

end AIReviewService

namespace JiraService

/-- The opening panel markup of the review comment
(`src/services/jira_service.py:116`). -/
def panelHead : String :=
  "\x7bpanel:title=AI Code Review Results|borderStyle=solid|borderColor=#ccc|titleBGColor=#f0f0f0|bgColor=#fff\x7d\n\n"

/-- `JiraService._format_review_comment`
(`src/services/jira_service.py:106-127`): panel header, then a Summary
section if the dict has a `summary` key, then a Suggestions section with
one bullet per iterated element if the dict has a `suggestions` key, then
the closing panel markup. -/
def format_review_comment (review_results : List (String × JVal)) : String :=
  let c1 := panelHead
  let c2 :=
    match dlookup review_results "summary" with
    | some v => c1 ++ "h3. Summary\n" ++ pyStr v ++ "\n\n"
    | none => c1
  let c3 :=
    match dlookup review_results "suggestions" with
    | some v =>
      c2 ++ "h3. Suggestions\n" ++ String.join ((pyIter v).map fun suggestion => "* " ++ pyStr suggestion ++ "\n")
    | none => c2
  c3 ++ "\n\x7bpanel\x7d"

/-- `JiraService.check_health` (`src/services/jira_service.py:129-141`)
including its `lru_cache(maxsize=1)` decorator. The cache is keyed on the
single long-lived `self`, so its state is one optional memoised boolean.
`connOk` is the oracle for what the undecorated body would return at this
call (`True` iff `self.client.server_info()` succeeds now; every exception
is caught and yields `False`). Returns the call's result and the cache
state after the call. -/
def check_health (connOk : Bool) : Option Bool → Bool × Option Bool
  | some cached => (cached, some cached)
  | none => (connOk, some connOk)

end JiraService

namespace App

/-- The response model of the `/health` endpoint (`src/app.py:42-46`). -/
structure HealthResponse where
  status : String
  jira_connection : Bool
  ai_service_connection : Bool
  git_connection : Bool

/-- `health_check` (`src/app.py:56-77`). `jiraHealth` is the value
returned by `jira_service.check_health()`. `git_service` is a module-level
object created at import (`src/app.py:18`), so `git_service is not None`
is the constant `True` for every request the running process serves, and
`ai_health` is the literal `True`. -/
def health_check (jiraHealth : Bool) : HealthResponse :=
  let git_health := true
  let ai_health := true
  { status := if jiraHealth && git_health && ai_health then "healthy" else "degraded"
    jira_connection := jiraHealth
    git_connection := git_health
    ai_service_connection := ai_health }

/-- A Python exception escaping a collaborator call, split by the two
`except` clauses of the `/review` endpoint. -/
inductive PyExn where
  | valueError (msg : String)
  | other (msg : String)

/-- The request body of the `/review` endpoint (`src/app.py:23-25`). -/
structure ReviewRequest where
  issue_key : String
  branch_name : String

/-- What the `/review` endpoint hands back to the framework: a 200
response body, or an `HTTPException` with a status code and detail. -/
inductive ApiResult where
  | ok (respStatus : String) (issue_key : String) (review_results : List (String × JVal))
  | httpError (code : Nat) (detail : String)

/-- The external world of one `/review` request: results of each
collaborator call the endpoint makes, in call order. -/
structure Env where
  /-- Result of `jira_service.check_health()` (already reflecting its
  internal cache). -/
  jiraHealth : Bool
  /-- Result of the `repo.git.diff` subprocess call:
  `GitCommandError` message or diff text. -/
  gitDiff : Except String String
  /-- Result of the `repo.git.blame` subprocess call per file path. -/
  blame : String → Except Unit String
  /-- Result of `jira_service.get_issue_context(issue_key)`. -/
  issueContext : Except PyExn (List (String × JVal))
  /-- The HTTP transport of the AI review call. -/
  http : JVal → Except String (List (String × JVal))
  /-- Result of `jira_service.update_with_review(issue_key, results)`. -/
  publish : List (String × JVal) → Except PyExn Unit

/-- The 503 detail string of the health gate (`src/app.py:115`). -/
def unavailableDetail : String :=
  "Service is not fully operational. Check /health endpoint for details."

/-- The enriched change list: `get_branch_changes` output with the
`jira_context` broadcast onto every record (`src/app.py:120-125`). -/
def enrichedChanges (env : Env) (diffText : String) (jctx : List (String × JVal)) :
    List GitService.ChangeRecord :=
  (GitService.get_branch_changes (fun f => GitService.get_last_author (env.blame f)) diffText).map
    fun change => { change with jira_context := some jctx }

/-- The `/review` endpoint `review_code` (`src/app.py:92-144`): health
gate, then extract → enrich → review → publish inside a `try` whose
`except ValueError` maps to 400 and `except Exception` to 500. The second
component records whether `git_service.get_branch_changes` was invoked. -/
def review_code (settings : Settings) (env : Env) (request : ReviewRequest) :
    ApiResult × Bool :=
  let health := health_check env.jiraHealth
  if health.status ≠ "healthy" then
    (.httpError 503 unavailableDetail, false)
  else
    match GitService.get_branch_changes_result
        (fun f => GitService.get_last_author (env.blame f)) env.gitDiff with
    | .error msg => (.httpError 400 msg, true)
    | .ok code_changes =>
      match env.issueContext with
      | .error (.valueError m) => (.httpError 400 m, true)
      | .error (.other m) => (.httpError 500 m, true)
      | .ok jira_context =>
        let enriched := code_changes.map fun change => { change with jira_context := some jira_context }
        let review_results := (AIReviewService.review_code settings env.http enriched).1
        match env.publish review_results with
        | .error (.valueError m) => (.httpError 400 m, true)
        | .error (.other m) => (.httpError 500 m, true)
        | .ok _ => (.ok "success" request.issue_key review_results, true)

end App

/-! ### Helper lemmas -/

theorem replaceAllAux_append (pat rep rest : List Char) (h : pat ≠ []) :
    replaceAllAux pat rep (pat ++ rest) = rep ++ replaceAllAux pat rep rest := by
  match pat, h with
  | p :: ps, _ =>
    have hpre : (p :: ps).isPrefixOf ((p :: ps) ++ rest) = true := by
      rw [List.isPrefixOf_iff_prefix]
      exact List.prefix_append _ _
    show replaceAllAux (p :: ps) rep (p :: (ps ++ rest)) = _
    rw [replaceAllAux]
    rw [dif_pos ⟨List.cons_ne_nil p ps, by simpa using hpre⟩]
    congr 1
    have hdrop : (p :: (ps ++ rest)).drop (p :: ps).length = rest := by
      simpa using List.drop_left (p :: ps) rest
    rw [hdrop]

theorem replaceAllAux_of_not_occurs (pat rep : List Char) :
    ∀ l, occursIn pat l = false → replaceAllAux pat rep l = l := by
  intro l
  induction l with
  | nil => intro _; rw [replaceAllAux]
  | cons c cs ih =>
    intro h
    rw [occursIn, Bool.or_eq_false_iff] at h
    rw [replaceAllAux, dif_neg]
    · rw [ih h.2]
    · intro hc
      rw [hc.2] at h
      exact absurd h.1 (by simp)

theorem pyReplace_of_prefix (name : String)
    (h : occursIn "author ".data name.data = false) :
    pyReplace ("author " ++ name) "author " "" = name := by
  show String.mk (replaceAllAux "author ".data "".data ("author " ++ name).data) = name
  have hdata : ("author " ++ name).data = "author ".data ++ name.data := by
    cases name; rfl
  rw [hdata, replaceAllAux_append _ _ _ (by decide),
    replaceAllAux_of_not_occurs _ _ _ h]
  rfl

/-! ### Claims -/

/-- The diff text of the worked example in the specification. -/
def exampleDiffText : String :=
  "diff --git a/x.py b/x.py\n@@ -1,1 +1,1 @@\n-old\n+new\ndiff --git a/y.py b/y.py\n"

/-- C1 (counterexample): on the example diff text the parser does NOT
produce a record only for `x.py` — the trailing newline yields a final
empty line, which is buffered as content for `y.py`, so `y.py` gets a
record too (file paths are `x.py` and `y.py`, not just `x.py`). -/
theorem c1_counterexample_y_gets_record :
    (GitService.get_branch_changes (fun _ => "Unknown") exampleDiffText).map
        GitService.ChangeRecord.file_path ≠ ["x.py"] := by
  decide

/-- C1 (amended): on the example diff text the parser produces exactly two
records — one for `x.py` with changes `"@@ -1,1 +1,1 @@\n-old\n+new"`, and
one for `y.py` with empty changes text, because the final `"\n"` of the
input produces an empty last line that is buffered as content for `y.py`
(so its buffer is not empty at end of input), for every author-lookup
function. -/
theorem c1_amended_example_diff_records (authorOf : String → String) :
    GitService.get_branch_changes authorOf exampleDiffText =
      [{ file_path := "x.py", changes := "@@ -1,1 +1,1 @@\n-old\n+new",
         author := authorOf "x.py", jira_context := none },
       { file_path := "y.py", changes := "", author := authorOf "y.py",
         jira_context := none }] := by
  rfl

/-- C5 (code bug): for the header `diff --git a/bar.py b/bar.py` the code
stores `file_path = "ar.py"`, not `"bar.py"`: Python's `lstrip("b/")`
strips ALL leading characters drawn from the set containing b and the
slash, not a single `b/` prefix as the specification states. -/
theorem c5_lstrip_strips_char_set :
    GitService.get_branch_changes (fun _ => "Unknown")
        "diff --git a/bar.py b/bar.py\n+x" =
      [{ file_path := "ar.py", changes := "+x", author := "Unknown",
         jira_context := none }] ∧
    GitService.newFilePath "diff --git a/bar.py b/bar.py" ≠ "bar.py" := by
  exact ⟨rfl, by decide⟩

/-- C7 (code bug): `check_health` is decorated with `lru_cache(maxsize=1)`
keyed on the single service instance, so the first result is cached: a
first call while the connection is up returns `True`, and a second call
while the connection is down STILL returns `True` instead of recomputing —
the health state is not recomputed on every call. -/
theorem c7_health_check_caches_first_result :
    (JiraService.check_health true none).1 = true ∧
    (JiraService.check_health false (JiraService.check_health true none).2).1 = true := by
  exact ⟨rfl, rfl⟩

/-- C2: for every decoded 2xx response mapping, `_process_review_response`
returns the success-shaped dict carrying the response's own `suggestions`
and `summary` values whenever all three required keys are present —
regardless of the value bound to the response's own `status` key — and
returns the fixed invalid-response failure dict whenever any of the three
keys is missing. -/
theorem c2_process_response_success_iff_keys (response_data : List (String × JVal)) :
    (∀ st sg sm, dlookup response_data "status" = some st →
        dlookup response_data "suggestions" = some sg →
        dlookup response_data "summary" = some sm →
        AIReviewService.process_review_response response_data =
          [("status", JVal.s "success"), ("suggestions", sg), ("summary", sm)]) ∧
    ((dlookup response_data "status" = none ∨ dlookup response_data "suggestions" = none ∨
        dlookup response_data "summary" = none) →
      AIReviewService.process_review_response response_data =
        AIReviewService.invalidResponseDict) := by
  constructor
  · intro st sg sm hst hsg hsm
    unfold AIReviewService.process_review_response
    rw [if_neg]
    · rw [hsg, hsm]
      rfl
    · simp [containsKey, hst, hsg, hsm]
  · intro hmiss
    unfold AIReviewService.process_review_response
    rw [if_pos]
    rcases hmiss with h | h | h <;> simp [containsKey, h]

/-- C2 witness: a concrete response whose own `status` value is
`"failed"` but which carries all three keys is still mapped to the
success-shaped dict with its `suggestions` and `summary`. -/
theorem c2_witness_status_failed_still_success :
    AIReviewService.process_review_response
        [("status", JVal.s "failed"), ("suggestions", JVal.arr [JVal.s "fix it"]),
         ("summary", JVal.s "bad code")] =
      [("status", JVal.s "success"), ("suggestions", JVal.arr [JVal.s "fix it"]),
       ("summary", JVal.s "bad code")] :=
  (c2_process_response_success_iff_keys _).1 _ _ _ rfl rfl rfl

/-- C4: whenever the backend URL or the API key is unset (`None`) or the
empty string, `review_code` returns the fixed not-configured failure dict
and the HTTP transport is never invoked (second component `false`), for
every transport oracle and every input record list. -/
theorem c4_unconfigured_short_circuit (settings : Settings)
    (http : JVal → Except String (List (String × JVal)))
    (code_changes : List GitService.ChangeRecord)
    (h : pyTruthy settings.AI_SERVICE_URL = false ∨
      pyTruthy settings.AI_SERVICE_API_KEY = false) :
    AIReviewService.review_code settings http code_changes =
      (AIReviewService.notConfiguredDict, false) := by
  unfold AIReviewService.review_code
  rcases h with h | h <;> rw [h] <;> simp

/-- C4 witness: with an unset backend URL (and a set API key) the review
call returns the not-configured failure and makes no transport call. -/
theorem c4_witness_no_url :
    AIReviewService.review_code { AI_SERVICE_URL := none, AI_SERVICE_API_KEY := some "k" }
        (fun _ => Except.error "transport must not be called") [] =
      (AIReviewService.notConfiguredDict, false) :=
  c4_unconfigured_short_circuit _ _ _ (Or.inl rfl)

/-- C8: the last-author lookup is a total function of the blame oracle: a
failing blame query yields the sentinel `"Unknown"`, a blame output with
no line starting with `author ` yields `"Unknown"` (the `StopIteration`
caught by the bare `except`), and when the first `author ` line is
`author <name>` (the name not itself containing the token `author `) the
result is exactly `<name>`. -/
theorem c8_last_author_never_raises (blameResult : Except Unit String) :
    (∀ e, blameResult = .error e → GitService.get_last_author blameResult = "Unknown") ∧
    (∀ blame, blameResult = .ok blame →
      (((splitOnNewline blame).find? fun l => strStartsWith l "author ") = none →
          GitService.get_last_author blameResult = "Unknown") ∧
      (∀ name, ((splitOnNewline blame).find? fun l => strStartsWith l "author ") =
            some ("author " ++ name) →
          occursIn "author ".data name.data = false →
          GitService.get_last_author blameResult = name)) := by
  refine ⟨?_, ?_⟩
  · intro e he
    rw [he]
    rfl
  · intro blame hb
    subst hb
    constructor
    · intro hnone
      simp only [GitService.get_last_author]
      rw [hnone]
    · intro name hfind hocc
      simp only [GitService.get_last_author]
      rw [hfind]
      exact pyReplace_of_prefix name hocc

/-- C8 witness: a concrete porcelain blame output whose second line is
`author John Doe` yields `John Doe`, through the main theorem. -/
theorem c8_witness_author_line :
    GitService.get_last_author (Except.ok "hash 1 1\nauthor John Doe\nauthor-mail x") =
      "John Doe" :=
  ((c8_last_author_never_raises _).2 _ rfl).2 "John Doe" rfl (by decide)

/-- C6 (counterexample): for the Failure outcome produced when the AI
service is not configured — a real outcome of the program, which carries
`"suggestions": []` — the formatted comment body does contain the
`h3. Suggestions` section marker: the formatter keys the section on the
presence of the `suggestions` key, which every Failure dict has, so the
Suggestions section is NOT omitted entirely for Failure outcomes. -/
theorem c6_counterexample_failure_keeps_suggestions_header :
    occursIn "h3. Suggestions".data
      (JiraService.format_review_comment AIReviewService.notConfiguredDict).data = true := by
  set_option maxRecDepth 4000 in decide

/-- C6 (amended): for every outcome produced by the review service (which
always carries `summary` and `suggestions` keys, the latter an empty list
on Failure), the comment body contains the Summary section and the
`h3. Suggestions` header; a Success outcome contributes one `* ...` bullet
line per suggestion, while a Failure outcome contributes the header with
zero bullets (rather than omitting the section). -/
theorem c6_amended_comment_sections (err summary : String) (suggestions : List String) :
    JiraService.format_review_comment
        [("status", JVal.s "success"),
         ("suggestions", JVal.arr (suggestions.map JVal.s)),
         ("summary", JVal.s summary)] =
      JiraService.panelHead ++ "h3. Summary\n" ++ summary ++ "\n\n" ++
        "h3. Suggestions\n" ++ String.join (suggestions.map fun s => "* " ++ s ++ "\n") ++
        "\n\x7bpanel\x7d" ∧
    JiraService.format_review_comment
        [("status", JVal.s "failed"), ("error", JVal.s err),
         ("suggestions", JVal.arr []), ("summary", JVal.s summary)] =
      JiraService.panelHead ++ "h3. Summary\n" ++ summary ++ "\n\n" ++
        "h3. Suggestions\n" ++ "\n\x7bpanel\x7d" := by
  constructor
  · simp [JiraService.format_review_comment, dlookup, pyIter, pyStr, String.join, List.map_map,
      Function.comp_def]
  · simp [JiraService.format_review_comment, dlookup, pyIter, pyStr, String.join]

/-- C3: whenever any of the three health fields (jira, git, ai) reported
by the health check is false, the `/review` endpoint answers 503
service-unavailable and `get_branch_changes` is never invoked (second
component `false`), for every environment and request. -/
theorem c3_health_gate_blocks_extraction (settings : Settings) (env : App.Env)
    (request : App.ReviewRequest)
    (h : (App.health_check env.jiraHealth).jira_connection = false ∨
      (App.health_check env.jiraHealth).git_connection = false ∨
      (App.health_check env.jiraHealth).ai_service_connection = false) :
    App.review_code settings env request = (.httpError 503 App.unavailableDetail, false) := by
  obtain ⟨jh, gd, bl, ic, ht, pb⟩ := env
  have hj : jh = false := by
    rcases h with h | h | h
    · exact h
    · exact Bool.noConfusion h
    · exact Bool.noConfusion h
  subst hj
  rfl

/-- C3 witness: with the Jira health check reporting false, a concrete
request is answered 503 without reaching extraction. -/
theorem c3_witness_jira_down :
    App.review_code { AI_SERVICE_URL := some "http://ai", AI_SERVICE_API_KEY := some "k" }
        { jiraHealth := false, gitDiff := Except.ok "", blame := fun _ => Except.error (),
          issueContext := Except.ok [], http := fun _ => Except.error "down",
          publish := fun _ => Except.ok () }
        { issue_key := "AIREV-1", branch_name := "feature/x" } =
      (.httpError 503 App.unavailableDetail, false) :=
  c3_health_gate_blocks_extraction _ _ _ (Or.inl rfl)

/-- C9: for every request environment, the health check's
`git_connection` and `ai_service_connection` fields are the constant
`true` (git health is `git_service is not None` on a module-level object,
AI health is hard-coded `True`), the overall status is `"healthy"` exactly
when the Jira check succeeded, and the `/review` entry gate passes (and
extraction runs) exactly when the Jira check succeeded — the gate depends
solely on the Jira connection. -/
theorem c9_git_ai_health_constant_true (settings : Settings) (env : App.Env)
    (request : App.ReviewRequest) :
    (App.health_check env.jiraHealth).git_connection = true ∧
    (App.health_check env.jiraHealth).ai_service_connection = true ∧
    ((App.health_check env.jiraHealth).status = "healthy" ↔ env.jiraHealth = true) ∧
    (App.review_code settings env request).2 = env.jiraHealth := by
  obtain ⟨jh, gd, bl, ic, ht, pb⟩ := env
  refine ⟨rfl, rfl, ?_, ?_⟩
  · cases jh
    · show ("degraded" : String) = "healthy" ↔ (false : Bool) = true
      decide
    · show ("healthy" : String) = "healthy" ↔ (true : Bool) = true
      decide
  · cases jh
    · rfl
    · show (App.review_code settings ⟨true, gd, bl, ic, ht, pb⟩ request).2 = true
      unfold App.review_code
      dsimp only
      split
      · rename_i hcond
        exact absurd rfl hcond
      · split
        · rfl
        · split
          · rfl
          · rfl
          · split <;> rfl

/-- C10: whenever the health gate passes, extraction and context fetch
succeed, the review step returns its dict (here hypothesised to be
Failure-shaped, `status = "failed"`), and publishing does not raise, the
endpoint's response is a 200 with top-level status `"success"` carrying
the failure details only inside the embedded `review_results` — a failed
review is never surfaced as an error-classified top-level outcome. -/
theorem c10_failed_review_wrapped_success (settings : Settings) (env : App.Env)
    (request : App.ReviewRequest) (diffText : String) (jctx : List (String × JVal))
    (hjira : env.jiraHealth = true)
    (hdiff : env.gitDiff = Except.ok diffText)
    (hctx : env.issueContext = Except.ok jctx)
    (hfailed : dlookup (AIReviewService.review_code settings env.http
        (App.enrichedChanges env diffText jctx)).1 "status" = some (JVal.s "failed"))
    (hpub : env.publish (AIReviewService.review_code settings env.http
        (App.enrichedChanges env diffText jctx)).1 = Except.ok ()) :
    App.review_code settings env request =
      (App.ApiResult.ok "success" request.issue_key
        (AIReviewService.review_code settings env.http
          (App.enrichedChanges env diffText jctx)).1, true) := by
  obtain ⟨jh, gd, bl, ic, ht, pb⟩ := env
  simp only at hjira hdiff hctx hpub ⊢
  subst hjira
  subst hdiff
  subst hctx
  simp only [App.enrichedChanges] at hpub ⊢
  unfold App.review_code
  dsimp only [GitService.get_branch_changes_result]
  rw [if_neg (fun hc => hc rfl)]
  rw [hpub]

/-- C10 witness: with an unconfigured AI service the review step returns
the Failure-shaped not-configured dict, yet the endpoint's concrete
response is a 200 whose top-level status is `"success"` with that failure
dict embedded as the review results. -/
theorem c10_witness_unconfigured_failure :
    App.review_code { AI_SERVICE_URL := none, AI_SERVICE_API_KEY := none }
        { jiraHealth := true, gitDiff := Except.ok "", blame := fun _ => Except.error (),
          issueContext := Except.ok [], http := fun _ => Except.error "unused",
          publish := fun _ => Except.ok () }
        { issue_key := "AIREV-1", branch_name := "feature/x" } =
      (App.ApiResult.ok "success" "AIREV-1" AIReviewService.notConfiguredDict, true) :=
  c10_failed_review_wrapped_success _ _ _ "" [] rfl rfl rfl rfl rfl
